import Mathlib

/-!
Verification of the Vimshottari Dasha calculator and the planetary
afflictions calculator of the ai-astrologer repository
(`src/src/calculations/dasha_calculator.py` and
`src/src/calculations/planetary_afflictions.py`).

Modelling conventions:
* Instants (`datetime`) are rationals counting days; `timedelta(days = d)`
  is addition of `d`.  `swe.julday` is an affine renumbering of the same
  day line, so Julian days are identified with the day count.
* Python `float` arithmetic is modelled by exact rational arithmetic; the
  decimal literals of the source (`13.333333333`, `365.25`, ...) denote the
  corresponding exact rationals.
* A call into the `swisseph` ephemeris is an `Option ℚ` (the raw ecliptic
  longitude, `none` when the adapter raises).  The `try/except` blocks of
  the source that catch an exception, show it with `st.error` and return
  `None` are modelled by propagating `none`; the UI side effect has no
  computational content.
* Python `int()` truncates toward zero (`pyInt`), float `%` with a positive
  modulus is `a - b*floor(a/b)` (`pyMod`), and `datetime` subtraction
  followed by `.days` is the floor of the day difference.
-/

/-- Floor of a rational, as the source's `math.floor`/`//` semantics
(computable form, kernel-reducible). -/
def ratFloor (q : ℚ) : ℤ := q.num / q.den

/-- Lemma: `ratFloor` agrees with the mathematical floor. -/
theorem ratFloor_eq (q : ℚ) : ratFloor q = ⌊q⌋ := Rat.floor_def.symm

/-- Python `int()` applied to a float: truncation toward zero. -/
def pyInt (q : ℚ) : ℤ := if 0 ≤ q then ratFloor q else -ratFloor (-q)

/-- Python float `%` (for the positive moduli used by the source):
`a - b * (a // b)`. -/
def pyMod (a b : ℚ) : ℚ := a - b * ratFloor (a / b)

/-- Python list indexing `l[i]`: non-negative indices from the front,
negative indices from the back, `IndexError` (here `none`) otherwise. -/
def pyListGet {α : Type} (l : List α) (i : ℤ) : Option α :=
  if 0 ≤ i then l[i.toNat]?
  else if 0 ≤ (l.length : ℤ) + i then l[((l.length : ℤ) + i).toNat]?
  else none

/-- The nine ruling bodies of the Vimshottari system (keys of
`VimshottariDashaCalculator.DASHA_PERIODS`, plus nothing else). -/
inductive Planet where
  | Sun | Moon | Mars | Rahu | Jupiter | Saturn | Mercury | Ketu | Venus
deriving DecidableEq

open Planet

/-- Table `DASHA_PERIODS`: Vimshottari major-period length in years for each
ruling body (`dasha_calculator.py`, lines 10-20). -/
def DASHA_PERIODS : Planet → ℚ
  | Sun => 6
  | Moon => 10
  | Mars => 7
  | Rahu => 18
  | Jupiter => 16
  | Saturn => 19
  | Mercury => 17
  | Ketu => 7
  | Venus => 20

/-- Sequence `list(DASHA_PERIODS.keys())`: the insertion order of the dict, which is
the cyclic order used by both the current-dasha walk and the timeline. -/
def planet_sequence : List Planet :=
  [Sun, Moon, Mars, Rahu, Jupiter, Saturn, Mercury, Ketu, Venus]

/-- Index `planet_sequence.index(p)` (`dasha_calculator.py`, lines 128 and 204). -/
def planetIndex : Planet → ℕ
  | Sun => 0
  | Moon => 1
  | Mars => 2
  | Rahu => 3
  | Jupiter => 4
  | Saturn => 5
  | Mercury => 6
  | Ketu => 7
  | Venus => 8

/-- Table `NAKSHATRA_LORDS`: the fixed 27-entry nakshatra-to-ruling-planet table
(`dasha_calculator.py`, lines 23-27). -/
def NAKSHATRA_LORDS : List Planet :=
  [Ketu, Venus, Sun, Moon, Mars, Rahu, Jupiter, Saturn, Mercury,
   Ketu, Venus, Sun, Moon, Mars, Rahu, Jupiter, Saturn, Mercury,
   Ketu, Venus, Sun, Moon, Mars, Rahu, Jupiter, Saturn, Mercury]

/-- Result dict of `calculate_moon_nakshatra`. -/
structure NakshatraData where
  nakshatra_number : ℤ
  nakshatra_degree : ℚ
  moon_longitude : ℚ
  nakshatra_lord : Planet
deriving DecidableEq

/-- Function `calculate_moon_nakshatra` (`dasha_calculator.py`, lines 32-60).
`moon_eph` is the Moon longitude delivered by `swe.calc_ut` at the birth
instant (`none` when the ephemeris call raises).  The blanket
`except ... st.error ...; return None` is the `none` result; it also
catches the `IndexError` of an out-of-range `NAKSHATRA_LORDS` lookup. -/
def calculate_moon_nakshatra (moon_eph : Option ℚ) : Option NakshatraData :=
  match moon_eph with
  | none => none
  | some moon_longitude =>
    let nakshatra_number : ℤ := pyInt (moon_longitude / 13.333333333) + 1
    let nakshatra_degree : ℚ := pyMod moon_longitude 13.333333333
    match pyListGet NAKSHATRA_LORDS (nakshatra_number - 1) with
    | none => none
    | some lord =>
      some ⟨nakshatra_number, nakshatra_degree, moon_longitude, lord⟩

/-- Result dict of `calculate_dasha_start_date`. -/
structure DashaInfo where
  ruling_planet : Planet
  dasha_start_date : ℚ
  total_period_years : ℚ
  completed_at_birth_years : ℚ
  remaining_at_birth_years : ℚ
  nakshatra_data : NakshatraData
deriving DecidableEq

/-- Function `calculate_dasha_start_date` (`dasha_calculator.py`, lines 62-90);
`birth` is `datetime.combine(birth_date, birth_time)` in days. -/
def calculate_dasha_start_date (moon_eph : Option ℚ) (birth : ℚ) :
    Option DashaInfo :=
  match calculate_moon_nakshatra moon_eph with
  | none => none
  | some nakshatra_data =>
    let nakshatra_completed : ℚ := nakshatra_data.nakshatra_degree / 13.333333333
    let ruling_planet := nakshatra_data.nakshatra_lord
    let total_period_years := DASHA_PERIODS ruling_planet
    let remaining_years := total_period_years * (1 - nakshatra_completed)
    let completed_years := total_period_years - remaining_years
    some ⟨ruling_planet, birth - completed_years * 365.25, total_period_years,
          completed_years, remaining_years, nakshatra_data⟩

theorem pyInt_of_nonneg {q : ℚ} (h : 0 ≤ q) : pyInt q = ⌊q⌋ := by
  rw [pyInt, if_pos h, ratFloor_eq]

theorem pyMod_eq (a b : ℚ) : pyMod a b = a - b * ⌊a / b⌋ := by
  rw [pyMod, ratFloor_eq]

theorem pyMod_nonneg {a b : ℚ} (hb : 0 < b) : 0 ≤ pyMod a b := by
  rw [pyMod_eq]
  have h := Int.floor_le (a / b)
  have : b * ⌊a / b⌋ ≤ b * (a / b) := by
    exact mul_le_mul_of_nonneg_left h (le_of_lt hb)
  have hba : b * (a / b) = a := by field_simp
  linarith

theorem pyMod_lt {a b : ℚ} (hb : 0 < b) : pyMod a b < b := by
  rw [pyMod_eq]
  have h := Int.lt_floor_add_one (a / b)
  have : b * (a / b) < b * (⌊a / b⌋ + 1) := mul_lt_mul_of_pos_left h hb
  have hba : b * (a / b) = a := by field_simp
  nlinarith

/-- Result dict of `get_current_dasha`. -/
structure CurrentDasha where
  current_planet : Planet
  dasha_start_date : ℚ
  total_period_years : ℚ
  elapsed_years : ℚ
  remaining_years : ℚ
  end_date : ℚ
deriving DecidableEq

/-- The `while years_to_account > 0` walk of `get_current_dasha`
(`dasha_calculator.py`, lines 130-151), together with the number of loop
iterations it performs.  The dead fall-through `return None` of line 151 is
the `none` of the `else` branch. -/
def get_current_dasha_walk (years_to_account current_start : ℚ)
    (start_index : ℕ) : Option CurrentDasha × ℕ :=
  if h : 0 < years_to_account then
    let current_planet := planet_sequence.getD start_index Planet.Sun
    let period_years := DASHA_PERIODS current_planet
    if years_to_account ≤ period_years then
      (some ⟨current_planet, current_start, period_years, years_to_account,
             period_years - years_to_account,
             current_start + period_years * 365.25⟩, 1)
    else
      let r := get_current_dasha_walk (years_to_account - period_years)
                 (current_start + period_years * 365.25)
                 ((start_index + 1) % planet_sequence.length)
      (r.1, r.2 + 1)
  else (none, 0)
termination_by (⌈years_to_account⌉).toNat
decreasing_by
  have h6 : (6:ℚ) ≤ DASHA_PERIODS (planet_sequence.getD start_index Planet.Sun) := by
    cases planet_sequence.getD start_index Planet.Sun <;> norm_num [DASHA_PERIODS]
  have hA : ⌈years_to_account - DASHA_PERIODS (planet_sequence.getD start_index Planet.Sun)⌉ ≤
      ⌈years_to_account⌉ - 1 := by
    rw [Int.ceil_le]
    push_cast
    have := Int.le_ceil years_to_account
    linarith
  have hB : 1 ≤ ⌈years_to_account⌉ := Int.ceil_pos.mpr h
  omega

/-- Function `get_current_dasha` (`dasha_calculator.py`, lines 92-151), paired with
the number of iterations of its cyclic-advance loop.  `now` is
`datetime.now()`; `elapsed_time.days / 365.25` is the floored day
difference divided by `365.25`. -/
def get_current_dasha_full (moon_eph : Option ℚ) (birth now : ℚ) :
    Option CurrentDasha × ℕ :=
  match calculate_dasha_start_date moon_eph birth with
  | none => (none, 0)
  | some dasha_info =>
    let elapsed_years : ℚ := (ratFloor (now - birth) : ℚ) / 365.25
    let current_planet := dasha_info.ruling_planet
    let remaining_at_birth := dasha_info.remaining_at_birth_years
    if elapsed_years ≤ remaining_at_birth then
      (some ⟨current_planet, dasha_info.dasha_start_date,
             DASHA_PERIODS current_planet,
             DASHA_PERIODS current_planet - (remaining_at_birth - elapsed_years),
             remaining_at_birth - elapsed_years,
             birth + remaining_at_birth * 365.25⟩, 0)
    else
      get_current_dasha_walk (elapsed_years - remaining_at_birth)
        (birth + remaining_at_birth * 365.25)
        ((planetIndex current_planet + 1) % planet_sequence.length)

/-- Function `get_current_dasha`: the dict the caller receives. -/
def get_current_dasha (moon_eph : Option ℚ) (birth now : ℚ) :
    Option CurrentDasha :=
  (get_current_dasha_full moon_eph birth now).1

/-- One entry of the list built by `get_complete_life_dasha_timeline`
(`dasha_calculator.py`, lines 181-234).  `elapsed_years`/`remaining_years`
are the keys that are only present on the current period, hence `Option`. -/
structure TimelineEntry where
  planet : Planet
  start_date : ℚ
  end_date : ℚ
  is_current : Bool
  is_past : Bool
  elapsed_years : Option ℚ
  remaining_years : Option ℚ
  period_years : ℚ
deriving DecidableEq

/-- The `while current_start_date < end_of_life` loop of
`get_complete_life_dasha_timeline` (`dasha_calculator.py`, lines 206-235). -/
def timeline_loop (now end_of_life : ℚ) (current_index : ℕ)
    (current_start_date : ℚ) : List TimelineEntry :=
  if h : current_start_date < end_of_life then
    let idx := (current_index + 1) % planet_sequence.length
    let planet := planet_sequence.getD idx Planet.Sun
    let period_years := DASHA_PERIODS planet
    let end_date := current_start_date + period_years * 365.25
    let is_current := decide (current_start_date ≤ now ∧ now < end_date)
    let is_past := decide (end_date ≤ now)
    { planet := planet
      start_date := current_start_date
      end_date := end_date
      is_current := is_current
      is_past := is_past
      elapsed_years :=
        if is_current then some ((ratFloor (now - current_start_date) : ℚ) / 365.25)
        else none
      remaining_years :=
        if is_current then
          some (period_years - (ratFloor (now - current_start_date) : ℚ) / 365.25)
        else none
      period_years := period_years } ::
      timeline_loop now end_of_life idx end_date
  else []
termination_by (⌈end_of_life - current_start_date⌉).toNat
decreasing_by
  have h6 : (6:ℚ) ≤ DASHA_PERIODS
      (planet_sequence.getD ((current_index + 1) % planet_sequence.length) Planet.Sun) := by
    cases planet_sequence.getD ((current_index + 1) % planet_sequence.length) Planet.Sun <;>
      norm_num [DASHA_PERIODS]
  have hA : ⌈end_of_life - (current_start_date +
      DASHA_PERIODS (planet_sequence.getD ((current_index + 1) % planet_sequence.length)
        Planet.Sun) * 365.25)⌉ ≤ ⌈end_of_life - current_start_date⌉ - 1 := by
    rw [Int.ceil_le]
    push_cast
    have := Int.le_ceil (end_of_life - current_start_date)
    nlinarith
  have hB : 1 ≤ ⌈end_of_life - current_start_date⌉ :=
    Int.ceil_pos.mpr (by linarith)
  omega

/-- Function `get_complete_life_dasha_timeline` (`dasha_calculator.py`,
lines 153-237).  The first entry is the period active at birth
(lines 169-199); the rest is the loop. -/
def get_complete_life_dasha_timeline (moon_eph : Option ℚ) (birth now : ℚ) :
    Option (List TimelineEntry) :=
  match calculate_dasha_start_date moon_eph birth with
  | none => none
  | some dasha_info =>
    let end_of_life := birth + 100 * 365.25
    let current_planet := dasha_info.ruling_planet
    let current_start := dasha_info.dasha_start_date
    let remaining_at_birth := dasha_info.remaining_at_birth_years
    let first_end := birth + remaining_at_birth * 365.25
    let is_current := decide (current_start ≤ now ∧ now < first_end)
    let is_past := decide (first_end ≤ now)
    let first : TimelineEntry :=
      if is_current then
        { planet := current_planet
          start_date := current_start
          end_date := first_end
          is_current := true
          is_past := false
          elapsed_years := some ((ratFloor (now - current_start) : ℚ) / 365.25)
          remaining_years :=
            some (remaining_at_birth - (ratFloor (now - birth) : ℚ) / 365.25)
          period_years := DASHA_PERIODS current_planet }
      else
        { planet := current_planet
          start_date := current_start
          end_date := first_end
          is_current := false
          is_past := is_past
          elapsed_years := none
          remaining_years := none
          period_years := DASHA_PERIODS current_planet }
    some (first :: timeline_loop now end_of_life (planetIndex current_planet) first_end)

/-- Result dict of `get_planet_position` (`planetary_afflictions.py`,
lines 103-125); the presentational `sign_name` string is omitted.  `raw`
is the longitude produced by the ephemeris call (already `(rahu+180) % 360`
for Ketu), `none` when it raises. -/
structure PlanetPos where
  longitude : ℚ
  sign : ℤ
  degree : ℚ
deriving DecidableEq

/-- Function `get_planet_position`: `sign = int(longitude // 30) + 1`,
`degree = longitude % 30`. -/
def get_planet_position (raw : Option ℚ) : Option PlanetPos :=
  match raw with
  | none => none
  | some longitude =>
    some ⟨longitude, ratFloor (longitude / 30) + 1, pyMod longitude 30⟩

/-- Function `get_moon_sign` (`planetary_afflictions.py`, lines 135-139). -/
def get_moon_sign (moon_raw : Option ℚ) : Option ℤ :=
  (get_planet_position moon_raw).map PlanetPos.sign

/-- One Sade Sathi dict built by `calculate_sade_sathi_periods`
(`planetary_afflictions.py`, lines 192-205).  The rounded `start_age` /
`end_age` and the `moon_sign` / `effects` / `remedies` strings are
presentation-only and omitted; `saturn_house` is the stale loop variable
`house`, which always holds `2` at the append site. -/
structure SadeEntry where
  name : String
  phase : String
  intensity : String
  start_date : ℚ
  end_date : ℚ
  duration_years : ℚ
  saturn_house : ℤ
deriving DecidableEq

/-- The `while current_date < end_date and cycle_count < 4` loop of
`calculate_sade_sathi_periods` (`planetary_afflictions.py`, lines 162-210).
`sat_eph` delivers Saturn's longitude at a Julian day;
`int(7.5 * 365.25) = 2739` days per period and
`int(29.5 * 365.25) = 10774` days per Saturn-cycle step. -/
def sade_loop (sat_eph : ℚ → Option ℚ) (end_date : ℚ) (h12 h1 h2 : ℤ)
    (current_date : ℚ) (cycle_count : ℕ) : List SadeEntry :=
  if h : current_date < end_date ∧ cycle_count < 4 then
    match get_planet_position (sat_eph current_date) with
    | some saturn_pos =>
      if saturn_pos.sign = h12 ∨ saturn_pos.sign = h1 ∨ saturn_pos.sign = h2 then
        { name := "Sade Sathi"
          phase :=
            if saturn_pos.sign = h12 then "Rising (Arohini)"
            else if saturn_pos.sign = h1 then "Peak (Madhya)"
            else "Setting (Avarohi)"
          intensity :=
            if saturn_pos.sign = h12 then "Moderate"
            else if saturn_pos.sign = h1 then "High"
            else "Moderate"
          start_date := current_date
          end_date := current_date + (pyInt (7.5 * 365.25) : ℚ)
          duration_years := 7.5
          saturn_house := 2 } ::
          sade_loop sat_eph end_date h12 h1 h2
            (current_date + (pyInt (29.5 * 365.25) : ℚ)) (cycle_count + 1)
      else
        sade_loop sat_eph end_date h12 h1 h2
          (current_date + (pyInt (29.5 * 365.25) : ℚ)) cycle_count
    | none =>
      sade_loop sat_eph end_date h12 h1 h2
        (current_date + (pyInt (29.5 * 365.25) : ℚ)) cycle_count
  else []
termination_by (⌈end_date - current_date⌉).toNat
decreasing_by
  all_goals
    have hval : (pyInt (29.5 * 365.25) : ℤ) = 10774 := by
      rw [pyInt_of_nonneg (by norm_num), Int.floor_eq_iff]
      norm_num
    have hA : ⌈end_date - (current_date + (pyInt (29.5 * 365.25) : ℚ))⌉ ≤
        ⌈end_date - current_date⌉ - 1 := by
      rw [Int.ceil_le, hval]
      push_cast
      have := Int.le_ceil (end_date - current_date)
      linarith
    have hB : 1 ≤ ⌈end_date - current_date⌉ := Int.ceil_pos.mpr (by linarith [h.1])
    omega

/-- Function `calculate_sade_sathi_periods` (`planetary_afflictions.py`,
lines 141-212), `datetime` branch: the horizon is
`birth + timedelta(days = 365 * 100)`.  A falsy moon sign (`None` or `0`)
yields `[]`. -/
def calculate_sade_sathi_periods (moon_raw : Option ℚ)
    (sat_eph : ℚ → Option ℚ) (birth : ℚ) : List SadeEntry :=
  match get_moon_sign moon_raw with
  | none => []
  | some moon_sign =>
    if moon_sign = 0 then []
    else
      sade_loop sat_eph (birth + 365 * 100)
        ((moon_sign + 12 - 2) % 12 + 1)
        ((moon_sign + 1 - 2) % 12 + 1)
        ((moon_sign + 2 - 2) % 12 + 1)
        birth 0

/-- One Ashtama Shani dict built by `calculate_ashtama_shani_periods`
(`planetary_afflictions.py`, lines 246-257); rounded ages and fixed
text fields omitted as for `SadeEntry`. -/
structure AshtamaEntry where
  name : String
  start_date : ℚ
  end_date : ℚ
  duration_years : ℚ
  intensity : String
deriving DecidableEq

/-- The `while current_date < end_date and cycle_count < 4` loop of
`calculate_ashtama_shani_periods` (`planetary_afflictions.py`,
lines 234-263): one entry of `int(2.5 * 365.25) = 913` days whenever Saturn
sits in the 8th sign from the Moon sign, stepping by
`int(29.5 * 365.25) = 10774` days. -/
def ashtama_loop (sat_eph : ℚ → Option ℚ) (end_date : ℚ) (eighth : ℤ)
    (current_date : ℚ) (cycle_count : ℕ) : List AshtamaEntry :=
  if h : current_date < end_date ∧ cycle_count < 4 then
    match get_planet_position (sat_eph current_date) with
    | some saturn_pos =>
      if saturn_pos.sign = eighth then
        { name := "Ashtama Shani"
          start_date := current_date
          end_date := current_date + (pyInt (2.5 * 365.25) : ℚ)
          duration_years := 2.5
          intensity := "Very High" } ::
          ashtama_loop sat_eph end_date eighth
            (current_date + (pyInt (29.5 * 365.25) : ℚ)) (cycle_count + 1)
      else
        ashtama_loop sat_eph end_date eighth
          (current_date + (pyInt (29.5 * 365.25) : ℚ)) cycle_count
    | none =>
      ashtama_loop sat_eph end_date eighth
        (current_date + (pyInt (29.5 * 365.25) : ℚ)) cycle_count
  else []
termination_by (⌈end_date - current_date⌉).toNat
decreasing_by
  all_goals
    have hval : (pyInt (29.5 * 365.25) : ℤ) = 10774 := by
      rw [pyInt_of_nonneg (by norm_num), Int.floor_eq_iff]
      norm_num
    have hA : ⌈end_date - (current_date + (pyInt (29.5 * 365.25) : ℚ))⌉ ≤
        ⌈end_date - current_date⌉ - 1 := by
      rw [Int.ceil_le, hval]
      push_cast
      have := Int.le_ceil (end_date - current_date)
      linarith
    have hB : 1 ≤ ⌈end_date - current_date⌉ := Int.ceil_pos.mpr (by linarith [h.1])
    omega

/-- Function `calculate_ashtama_shani_periods` (`planetary_afflictions.py`,
lines 214-264), `datetime` branch. -/
def calculate_ashtama_shani_periods (moon_raw : Option ℚ)
    (sat_eph : ℚ → Option ℚ) (birth : ℚ) : List AshtamaEntry :=
  match get_moon_sign moon_raw with
  | none => []
  | some moon_sign =>
    if moon_sign = 0 then []
    else
      ashtama_loop sat_eph (birth + 365 * 100) ((moon_sign + 6) % 12 + 1) birth 0

/-- A member of the heterogeneous list built by `get_current_afflictions`. -/
inductive AfflictionPeriod where
  | sade (p : SadeEntry)
  | ashtama (p : AshtamaEntry)
deriving DecidableEq

/-- Accessor `period['start_date']` of an affliction period. -/
def AfflictionPeriod.start_date : AfflictionPeriod → ℚ
  | sade p => p.start_date
  | ashtama p => p.start_date

/-- Accessor `period['end_date']` of an affliction period. -/
def AfflictionPeriod.end_date : AfflictionPeriod → ℚ
  | sade p => p.end_date
  | ashtama p => p.end_date

/-- An element of the list returned by `get_current_afflictions`: the
period dict with the `status` and `remaining_days` keys added
(`planetary_afflictions.py`, lines 441-442 and 449-450). -/
structure CurrentAffliction where
  period : AfflictionPeriod
  status : String
  remaining_days : ℤ
deriving DecidableEq

/-- Function `get_current_afflictions` (`planetary_afflictions.py`, lines 432-453):
keeps the Sade Sathi and then the Ashtama Shani periods whose interval
satisfies `start_date <= now <= end_date`, tagging each "Active Now" with
`remaining_days = (end_date - now).days`. -/
def get_current_afflictions (moon_raw : Option ℚ) (sat_eph : ℚ → Option ℚ)
    (birth now : ℚ) : List CurrentAffliction :=
  ((calculate_sade_sathi_periods moon_raw sat_eph birth).filterMap fun p =>
    if p.start_date ≤ now ∧ now ≤ p.end_date then
      some ⟨AfflictionPeriod.sade p, "Active Now", ratFloor (p.end_date - now)⟩
    else none) ++
  ((calculate_ashtama_shani_periods moon_raw sat_eph birth).filterMap fun p =>
    if p.start_date ≤ now ∧ now ≤ p.end_date then
      some ⟨AfflictionPeriod.ashtama p, "Active Now", ratFloor (p.end_date - now)⟩
    else none)

/-- Function `check_kala_sarpa_dosha` (`planetary_afflictions.py`, lines 324-379).
Arguments are the raw ephemeris longitudes of the seven classical bodies
and of Rahu (`swe.MEAN_NODE`); Ketu is `(rahu + 180) % 360`.  The result is
projected to the dict's `present` flag (the other keys are fixed
presentational strings); `none` models the `return None` when a position is
missing. -/
def check_kala_sarpa_dosha
    (sun moon mars mercury jupiter venus saturn rahu : Option ℚ) :
    Option Bool :=
  let planet_positions :=
    List.filterMap (fun raw => (get_planet_position raw).map PlanetPos.longitude)
      [sun, moon, mars, mercury, jupiter, venus, saturn]
  match get_planet_position rahu,
        get_planet_position (rahu.map fun r => pyMod (r + 180) 360) with
  | some rahu_pos, some ketu_pos =>
    if planet_positions.length < 7 then none
    else
      let rahu_long := rahu_pos.longitude
      let ketu_long := ketu_pos.longitude
      let planets_between_nodes := planet_positions.countP fun longitude =>
        if rahu_long < ketu_long then
          decide (rahu_long ≤ longitude ∧ longitude ≤ ketu_long)
        else
          decide (longitude ≥ rahu_long ∨ longitude ≤ ketu_long)
      some (planets_between_nodes = planet_positions.length)
  | _, _ => none

theorem ratFloor_eq_of {q : ℚ} {z : ℤ} (h1 : (z:ℚ) ≤ q) (h2 : q < z + 1) :
    ratFloor q = z := by
  rw [ratFloor_eq]
  exact Int.floor_eq_iff.mpr ⟨h1, h2⟩

theorem pyInt_eq_of {q : ℚ} {z : ℤ} (h0 : 0 ≤ q) (h1 : (z:ℚ) ≤ q)
    (h2 : q < z + 1) : pyInt q = z := by
  rw [pyInt, if_pos h0]
  exact ratFloor_eq_of h1 h2

/-- Claim C1: for a Moon longitude `L ∈ [0, 360)` on which
`calculate_dasha_start_date` succeeds, the ruling planet is the entry at
index `floor(L / 13.333333333)` of the 27-entry `NAKSHATRA_LORDS` table,
`remaining_at_birth_years = total_period_years * (1 - (L mod 13.333333333) / 13.333333333)`,
and `dasha_start_date = birth - (total_period_years - remaining_at_birth_years) * 365.25`
days.  (The claim's concrete value `17.5` at `L = 15` is settled separately:
see the counterexample and witness.) -/
theorem C1_dasha_start_spec (L birth : ℚ) (di : DashaInfo)
    (h0 : 0 ≤ L) (h360 : L < 360)
    (h : calculate_dasha_start_date (some L) birth = some di) :
    NAKSHATRA_LORDS[(⌊L / 13.333333333⌋).toNat]? = some di.ruling_planet ∧
    di.total_period_years = DASHA_PERIODS di.ruling_planet ∧
    di.remaining_at_birth_years =
      di.total_period_years * (1 - pyMod L 13.333333333 / 13.333333333) ∧
    di.dasha_start_date =
      birth - (di.total_period_years - di.remaining_at_birth_years) * 365.25 := by
  have hq0 : (0:ℚ) ≤ L / 13.333333333 := by positivity
  have hpy : pyInt (L / 13.333333333) = ⌊L / 13.333333333⌋ := pyInt_of_nonneg hq0
  have hfl0 : (0:ℤ) ≤ ⌊L / 13.333333333⌋ := Int.floor_nonneg.mpr hq0
  simp only [calculate_dasha_start_date, calculate_moon_nakshatra] at h
  rw [hpy] at h
  have hidx : ⌊L / 13.333333333⌋ + 1 - 1 = ⌊L / 13.333333333⌋ := by ring
  rw [hidx] at h
  rw [pyListGet, if_pos hfl0] at h
  cases hg : NAKSHATRA_LORDS[(⌊L / 13.333333333⌋).toNat]? with
  | none => rw [hg] at h; simp at h
  | some lord =>
    rw [hg] at h
    simp only [Option.some.injEq] at h
    subst h
    exact ⟨rfl, rfl, rfl, rfl⟩

/-- Concrete definition of `calculate_dasha_start_date (some 15) 0`:
ruling planet Venus, with `remaining_at_birth_years` equal to
`20 * (1 - 1666666667/13333333333)`, which is close to, but not exactly,
`17.5`. -/
def dashaInfo15 : DashaInfo :=
  { ruling_planet := Planet.Venus
    dasha_start_date := 0 - 20 * (1666666667 / 13333333333) * 365.25
    total_period_years := 20
    completed_at_birth_years := 20 * (1666666667 / 13333333333)
    remaining_at_birth_years := 20 * (11666666666 / 13333333333)
    nakshatra_data :=
      { nakshatra_number := 2
        nakshatra_degree := 1666666667 / 1000000000
        moon_longitude := 15
        nakshatra_lord := Planet.Venus } }

theorem calculate_dasha_start_date_15 :
    calculate_dasha_start_date (some 15) 0 = some dashaInfo15 := by
  have hpy : pyInt ((15:ℚ) / 13.333333333) = 1 :=
    pyInt_eq_of (by norm_num) (by norm_num) (by norm_num)
  have hmod : pyMod 15 13.333333333 = 1666666667 / 1000000000 := by
    rw [pyMod, ratFloor_eq_of (z := 1) (by norm_num) (by norm_num)]
    norm_num
  simp only [calculate_dasha_start_date, calculate_moon_nakshatra, hpy, hmod]
  norm_num [pyListGet, NAKSHATRA_LORDS, dashaInfo15]
  norm_num [DASHA_PERIODS]

/-- Claim C1, counterexample to the concrete value: at `L = 15` the code
computes `remaining_at_birth_years = 233333333320/13333333333`, which is
within `10⁻⁸` of `17.5` but not equal to it (the nakshatra width literal
`13.333333333` is not exactly `40/3`). -/
theorem C1_counterexample :
    (calculate_dasha_start_date (some 15) 0).map DashaInfo.remaining_at_birth_years =
      some (233333333320 / 13333333333 : ℚ) ∧
    (233333333320 / 13333333333 : ℚ) ≠ 17.5 ∧
    |(233333333320 / 13333333333 : ℚ) - 17.5| < 1 / 10 ^ 8 := by
  refine ⟨?_, by norm_num, by rw [abs_sub_lt_iff]; norm_num⟩
  rw [calculate_dasha_start_date_15]
  norm_num [dashaInfo15]

/-- Witness for C1 at `L = 15`, `birth = 0`: the hypotheses hold and the
ruling planet is Venus with a 20-year period. -/
theorem C1_witness :
    ((0:ℚ) ≤ 15 ∧ (15:ℚ) < 360 ∧
      calculate_dasha_start_date (some 15) 0 = some dashaInfo15) ∧
    (NAKSHATRA_LORDS[(⌊(15:ℚ) / 13.333333333⌋).toNat]? =
        some dashaInfo15.ruling_planet ∧
      dashaInfo15.total_period_years = DASHA_PERIODS dashaInfo15.ruling_planet ∧
      dashaInfo15.remaining_at_birth_years =
        dashaInfo15.total_period_years *
          (1 - pyMod 15 13.333333333 / 13.333333333) ∧
      dashaInfo15.dasha_start_date =
        0 - (dashaInfo15.total_period_years -
          dashaInfo15.remaining_at_birth_years) * 365.25) ∧
    dashaInfo15.ruling_planet = Planet.Venus :=
  ⟨⟨by norm_num, by norm_num, calculate_dasha_start_date_15⟩,
   C1_dasha_start_spec 15 0 dashaInfo15 (by norm_num) (by norm_num)
     calculate_dasha_start_date_15, rfl⟩

/-- Claim C9: the nakshatra resolver does NOT reduce the longitude mod 360:
at exactly `360.0` it computes nakshatra index 27, the `NAKSHATRA_LORDS[27]`
lookup raises `IndexError`, and the blanket handler returns `None`, whereas
at `0.0` it returns nakshatra number 1 (index 0) with lord Ketu. -/
theorem C9_longitude_360_divergence :
    calculate_moon_nakshatra (some 360) = none ∧
    calculate_moon_nakshatra (some 0) = some ⟨1, 0, 0, Planet.Ketu⟩ := by
  constructor
  · have hpy : pyInt ((360:ℚ) / 13.333333333) = 27 :=
      pyInt_eq_of (by norm_num) (by norm_num) (by norm_num)
    simp [calculate_moon_nakshatra, hpy, pyListGet, NAKSHATRA_LORDS]
  · have hpy : pyInt (0:ℚ) = 0 :=
      pyInt_eq_of (by norm_num) (by norm_num) (by norm_num)
    have hmod : pyMod 0 13.333333333 = 0 := by
      rw [pyMod, ratFloor_eq_of (z := 0) (by norm_num) (by norm_num)]
      norm_num
    simp [calculate_moon_nakshatra, hpy, hmod, pyListGet, NAKSHATRA_LORDS]

/-- Claim C7 (amended): when nakshatra resolution fails, the engine does not
raise a typed `DashaComputationError`; `calculate_moon_nakshatra` shows the
error in the UI and returns `None`, and every caller
(`calculate_dasha_start_date`, `get_current_dasha`,
`get_complete_life_dasha_timeline`) silently propagates `None` to its
caller. -/
theorem C7_failure_propagates_none (birth now : ℚ) :
    calculate_moon_nakshatra none = none ∧
    calculate_dasha_start_date none birth = none ∧
    get_current_dasha none birth now = none ∧
    get_complete_life_dasha_timeline none birth now = none :=
  ⟨rfl, rfl, rfl, rfl⟩

/-- Claim C7, counterexample: on an ephemeris failure the callers of the
Dasha engine receive a null (`None`) result — there is no structured
`DashaComputationError` channel. -/
theorem C7_counterexample :
    calculate_dasha_start_date none 0 = none ∧
    get_current_dasha none 0 0 = none ∧
    get_complete_life_dasha_timeline none 0 0 = none :=
  ⟨rfl, rfl, rfl⟩

theorem DASHA_PERIODS_pos (p : Planet) : 0 < DASHA_PERIODS p := by
  cases p <;> norm_num [DASHA_PERIODS]

theorem DASHA_PERIODS_ge_six (p : Planet) : 6 ≤ DASHA_PERIODS p := by
  cases p <;> norm_num [DASHA_PERIODS]

theorem DASHA_PERIODS_le_twenty (p : Planet) : DASHA_PERIODS p ≤ 20 := by
  cases p <;> norm_num [DASHA_PERIODS]

/-- The successor of a ruling body in the cyclic walk used by the source:
the `planet_sequence` entry after `p`, wrapping at the end of the list. -/
def nextPlanet (p : Planet) : Planet :=
  planet_sequence.getD ((planetIndex p + 1) % planet_sequence.length) Planet.Sun

theorem planetIndex_getD (i : ℕ) (hi : i < 9) :
    planetIndex (planet_sequence.getD i Planet.Sun) = i := by
  interval_cases i <;> rfl

/-- The facts `calculate_dasha_start_date` guarantees about a successful
result: the derived fields satisfy their defining equations and the
remaining birth-period length lies in `(0, total]`. -/
theorem dasha_info_spec (moon_eph : Option ℚ) (birth : ℚ) (di : DashaInfo)
    (h : calculate_dasha_start_date moon_eph birth = some di) :
    di.total_period_years = DASHA_PERIODS di.ruling_planet ∧
    di.completed_at_birth_years =
      di.total_period_years - di.remaining_at_birth_years ∧
    di.dasha_start_date = birth - di.completed_at_birth_years * 365.25 ∧
    0 < di.remaining_at_birth_years ∧
    di.remaining_at_birth_years ≤ di.total_period_years := by
  cases moon_eph with
  | none => simp [calculate_dasha_start_date, calculate_moon_nakshatra] at h
  | some L =>
    simp only [calculate_dasha_start_date, calculate_moon_nakshatra] at h
    cases hg : pyListGet NAKSHATRA_LORDS (pyInt (L / 13.333333333) + 1 - 1) with
    | none => rw [hg] at h; simp at h
    | some lord =>
      rw [hg] at h
      simp only [Option.some.injEq] at h
      subst h
      have hW : (0:ℚ) < 13.333333333 := by norm_num
      have hm0 : 0 ≤ pyMod L 13.333333333 := pyMod_nonneg hW
      have hm1 : pyMod L 13.333333333 < 13.333333333 := pyMod_lt hW
      have hfrac1 : pyMod L 13.333333333 / 13.333333333 < 1 := by
        rw [div_lt_one hW]; exact hm1
      have hfrac0 : 0 ≤ pyMod L 13.333333333 / 13.333333333 := by positivity
      have hDP := DASHA_PERIODS_pos lord
      refine ⟨rfl, rfl, rfl, ?_, ?_⟩
      · dsimp only
        nlinarith
      · dsimp only
        nlinarith

/-- Well-formedness of one timeline entry: the entry's interval has the
length dictated by `period_years` and its status flags implement
`start ≤ now < end` / `end ≤ now`. -/
def EntryWf (now : ℚ) (e : TimelineEntry) : Prop :=
  e.end_date = e.start_date + e.period_years * 365.25 ∧
  0 < e.period_years ∧
  e.is_current = decide (e.start_date ≤ now ∧ now < e.end_date) ∧
  e.is_past = decide (e.end_date ≤ now)

/-- Chain invariant of the timeline tail: starting at instant `s` right
after an entry of planet `p`, the entries are contiguous, follow
`nextPlanet`, and are well formed. -/
def Chained (now : ℚ) : ℚ → Planet → List TimelineEntry → Prop
  | _, _, [] => True
  | s, p, e :: l =>
      e.start_date = s ∧ e.planet = nextPlanet p ∧ EntryWf now e ∧
      Chained now e.end_date e.planet l

/-- Chain invariant of a whole timeline (no constraint on the head's start
instant or predecessor). -/
def ChainedT (now : ℚ) : List TimelineEntry → Prop
  | [] => True
  | e :: l => EntryWf now e ∧ Chained now e.end_date e.planet l

theorem chained_tail {now s : ℚ} {p : Planet} {l : List TimelineEntry}
    (h : Chained now s p l) : ChainedT now l := by
  cases l with
  | nil => trivial
  | cons e l' => exact ⟨h.2.2.1, h.2.2.2⟩

/-- Lemma: `timeline_loop` satisfies the chain invariant. -/
theorem timeline_loop_chained (now end_of_life : ℚ) (p : Planet) (idx : ℕ)
    (start : ℚ) (hidx : idx = planetIndex p) :
    Chained now start p (timeline_loop now end_of_life idx start) := by
  rw [timeline_loop]
  split
  · refine ⟨rfl, ?_, ⟨rfl, DASHA_PERIODS_pos _, rfl, rfl⟩, ?_⟩
    · dsimp only
      rw [hidx, nextPlanet]
    · dsimp only
      refine timeline_loop_chained now end_of_life _ _ _ ?_
      rw [planetIndex_getD]
      exact Nat.mod_lt _ (by norm_num [planet_sequence])
  · trivial
termination_by (⌈end_of_life - start⌉).toNat
decreasing_by
  rename_i h
  have h6 : (6:ℚ) ≤ DASHA_PERIODS
      (planet_sequence.getD ((idx + 1) % planet_sequence.length) Planet.Sun) :=
    DASHA_PERIODS_ge_six _
  have hA : ⌈end_of_life - (start +
      DASHA_PERIODS (planet_sequence.getD ((idx + 1) % planet_sequence.length)
        Planet.Sun) * 365.25)⌉ ≤ ⌈end_of_life - start⌉ - 1 := by
    rw [Int.ceil_le]
    push_cast
    have := Int.le_ceil (end_of_life - start)
    nlinarith
  have hB : 1 ≤ ⌈end_of_life - start⌉ := Int.ceil_pos.mpr (by linarith)
  omega

/-- Every successful `get_complete_life_dasha_timeline` result satisfies
the chain invariant. -/
theorem timeline_chainedT (moon_eph : Option ℚ) (birth now : ℚ)
    (t : List TimelineEntry)
    (h : get_complete_life_dasha_timeline moon_eph birth now = some t) :
    ChainedT now t := by
  cases hm : calculate_dasha_start_date moon_eph birth with
  | none =>
    rw [get_complete_life_dasha_timeline, hm] at h
    simp at h
  | some di =>
    rw [get_complete_life_dasha_timeline, hm] at h
    obtain ⟨hts, hcomp, hstart, hrem0, hremle⟩ := dasha_info_spec _ _ _ hm
    simp only [Option.some.injEq] at h
    subst h
    constructor
    · -- well-formedness of the first entry
      split
      · rename_i hcur
        simp only [decide_eq_true_eq] at hcur
        refine ⟨?_, DASHA_PERIODS_pos _, ?_, ?_⟩
        · dsimp only
          rw [hstart, hcomp, hts]
          ring
        · dsimp only
          rw [eq_comm, decide_eq_true_eq]
          exact hcur
        · dsimp only
          rw [eq_comm, decide_eq_false_iff_not]
          intro hle
          exact absurd hcur.2 (not_lt.mpr hle)
      · rename_i hcur
        refine ⟨?_, DASHA_PERIODS_pos _, ?_, rfl⟩
        · dsimp only
          rw [hstart, hcomp, hts]
          ring
        · dsimp only
          rw [eq_comm]
          exact Bool.not_eq_true _ ▸ (by simpa using hcur)
    · -- the tail is chained after the first entry
      have hloop := timeline_loop_chained now (birth + 100 * 365.25)
        di.ruling_planet (planetIndex di.ruling_planet)
        (birth + di.remaining_at_birth_years * 365.25) rfl
      split <;> exact hloop

/-- Consecutive timeline entries: the next entry starts where the previous
one ends and carries the successor planet. -/
theorem chainedT_pair {now : ℚ} {t : List TimelineEntry} (hc : ChainedT now t) :
    ∀ i a b, t[i]? = some a → t[i+1]? = some b →
      b.start_date = a.end_date ∧ b.planet = nextPlanet a.planet := by
  induction t with
  | nil => intro i a b ha; simp at ha
  | cons e l ih =>
    intro i a b ha hb
    cases i with
    | zero =>
      simp only [List.getElem?_cons_zero, Option.some.injEq] at ha
      subst ha
      simp only [List.getElem?_cons_succ] at hb
      cases l with
      | nil => simp at hb
      | cons f l' =>
        simp only [List.getElem?_cons_zero, Option.some.injEq] at hb
        subst hb
        exact ⟨hc.2.1, hc.2.2.1⟩
    | succ i' =>
      simp only [List.getElem?_cons_succ] at ha hb
      exact ih (chained_tail hc.2) i' a b ha hb

theorem chained_start_ge {now : ℚ} : ∀ {s : ℚ} {p : Planet}
    {l : List TimelineEntry}, Chained now s p l →
    ∀ (i : ℕ) (b : TimelineEntry), l[i]? = some b → s ≤ b.start_date := by
  intro s p l
  induction l generalizing s p with
  | nil => intro _ i b hb; simp at hb
  | cons e l' ih =>
    intro h i b hb
    cases i with
    | zero =>
      simp only [List.getElem?_cons_zero, Option.some.injEq] at hb
      subst hb
      exact le_of_eq h.1.symm
    | succ i' =>
      simp only [List.getElem?_cons_succ] at hb
      have h2 := ih h.2.2.2 i' b hb
      have hwf := h.2.2.1
      have hpos : 0 < e.period_years * (365.25:ℚ) :=
        mul_pos hwf.2.1 (by norm_num)
      have hlt : s < e.end_date := by
        rw [hwf.1, h.1]
        linarith
      linarith

theorem chainedT_end_le {now : ℚ} : ∀ {t : List TimelineEntry},
    ChainedT now t → ∀ (i j : ℕ) (a b : TimelineEntry),
      i < j → t[i]? = some a → t[j]? = some b →
      a.end_date ≤ b.start_date := by
  intro t
  induction t with
  | nil => intro _ i j a b _ ha; simp at ha
  | cons e l ih =>
    intro hc i j a b hij ha hb
    cases i with
    | zero =>
      simp only [List.getElem?_cons_zero, Option.some.injEq] at ha
      subst ha
      obtain ⟨j', rfl⟩ : ∃ j', j = j' + 1 := ⟨j - 1, by omega⟩
      simp only [List.getElem?_cons_succ] at hb
      exact chained_start_ge hc.2 j' b hb
    | succ i' =>
      obtain ⟨j', rfl⟩ : ∃ j', j = j' + 1 := ⟨j - 1, by omega⟩
      simp only [List.getElem?_cons_succ] at ha hb
      exact ih (chained_tail hc.2) i' j' a b (by omega) ha hb

theorem chainedT_wf {now : ℚ} : ∀ {t : List TimelineEntry},
    ChainedT now t → ∀ a ∈ t, EntryWf now a := by
  intro t
  induction t with
  | nil => intro _ a ha; simp at ha
  | cons e l ih =>
    intro hc a ha
    rcases List.mem_cons.mp ha with rfl | hmem
    · exact hc.1
    · exact ih (chained_tail hc.2) a hmem

/-- Claim C2: every successful full Dasha timeline is contiguous — each
entry's `end_date` equals the next entry's `start_date` (here exactly, so
in particular within any 1-day tolerance) — and every entry's `end_date`
equals its `start_date` plus `period_years * 365.25` days. -/
theorem C2_timeline_contiguous (moon_eph : Option ℚ) (birth now : ℚ)
    (t : List TimelineEntry)
    (h : get_complete_life_dasha_timeline moon_eph birth now = some t) :
    (∀ (i : ℕ) (a b : TimelineEntry), t[i]? = some a → t[i + 1]? = some b →
      a.end_date = b.start_date) ∧
    (∀ e ∈ t, e.end_date = e.start_date + e.period_years * 365.25) := by
  have hc := timeline_chainedT _ _ _ _ h
  exact ⟨fun i a b ha hb => ((chainedT_pair hc i a b ha hb).1).symm,
         fun e he => (chainedT_wf hc e he).1⟩

/-- Claim C10: in every successful full Dasha timeline no entry is marked
both current and past, and at most one entry is marked current. -/
theorem C10_status_partition (moon_eph : Option ℚ) (birth now : ℚ)
    (t : List TimelineEntry)
    (h : get_complete_life_dasha_timeline moon_eph birth now = some t) :
    (∀ e ∈ t, ¬(e.is_current = true ∧ e.is_past = true)) ∧
    (∀ (i j : ℕ) (a b : TimelineEntry), t[i]? = some a → t[j]? = some b →
      a.is_current = true → b.is_current = true → i = j) := by
  have hc := timeline_chainedT _ _ _ _ h
  constructor
  · rintro e he ⟨h1, h2⟩
    have hwf := chainedT_wf hc e he
    rw [hwf.2.2.1, decide_eq_true_eq] at h1
    rw [hwf.2.2.2, decide_eq_true_eq] at h2
    exact absurd h2 (not_le.mpr h1.2)
  · intro i j a b ha hb hca hcb
    have hwa := chainedT_wf hc a (List.getElem?_mem ha)
    have hwb := chainedT_wf hc b (List.getElem?_mem hb)
    rw [hwa.2.2.1, decide_eq_true_eq] at hca
    rw [hwb.2.2.1, decide_eq_true_eq] at hcb
    by_contra hne
    rcases Nat.lt_or_ge i j with hij | hij
    · have hle := chainedT_end_le hc i j a b hij ha hb
      linarith [hca.2, hcb.1]
    · have hij' : j < i := by omega
      have hle := chainedT_end_le hc j i b a hij' hb ha
      linarith [hcb.2, hca.1]

/-- Claim C6 (amended): in the cyclic order actually used by the code
(`list(DASHA_PERIODS.keys())` = Sun, Moon, Mars, Rahu, Jupiter, Saturn,
Mercury, Ketu, Venus), the wrap is after Venus back to SUN: in every
successful timeline, an entry ruled by Venus is immediately followed by an
entry ruled by Sun, never by Ketu. -/
theorem C6_venus_followed_by_sun (moon_eph : Option ℚ) (birth now : ℚ)
    (t : List TimelineEntry) (i : ℕ) (a b : TimelineEntry)
    (h : get_complete_life_dasha_timeline moon_eph birth now = some t)
    (ha : t[i]? = some a) (hb : t[i + 1]? = some b)
    (hV : a.planet = Planet.Venus) : b.planet = Planet.Sun := by
  have hc := timeline_chainedT _ _ _ _ h
  have hp := (chainedT_pair hc i a b ha hb).2
  rw [hV] at hp
  exact hp

/-- Concrete result of `calculate_dasha_start_date (some 0) 0`: lord Ketu,
a full 7-year birth period remaining. -/
def dashaInfo0 : DashaInfo :=
  { ruling_planet := Planet.Ketu
    dasha_start_date := 0
    total_period_years := 7
    completed_at_birth_years := 0
    remaining_at_birth_years := 7
    nakshatra_data :=
      { nakshatra_number := 1
        nakshatra_degree := 0
        moon_longitude := 0
        nakshatra_lord := Planet.Ketu } }

theorem calculate_dasha_start_date_0 :
    calculate_dasha_start_date (some 0) 0 = some dashaInfo0 := by
  have hpy : pyInt ((0:ℚ) / 13.333333333) = 0 :=
    pyInt_eq_of (by norm_num) (by norm_num) (by norm_num)
  have hmod : pyMod 0 13.333333333 = 0 := by
    rw [pyMod, ratFloor_eq_of (z := 0) (by norm_num) (by norm_num)]
    norm_num
  simp only [calculate_dasha_start_date, calculate_moon_nakshatra, hpy, hmod]
  norm_num [pyListGet, NAKSHATRA_LORDS, dashaInfo0]
  norm_num [DASHA_PERIODS]

/-- The full Dasha timeline for Moon longitude `0`, birth instant `0`,
evaluation instant `0`: the Ketu birth period followed by the cyclic
sequence up to the 100-year horizon. -/
def timeline0 : List TimelineEntry :=
  [{ planet := Planet.Ketu, start_date := 0, end_date := 2556.75,
     is_current := true, is_past := false, elapsed_years := some 0,
     remaining_years := some 7, period_years := 7 },
   { planet := Planet.Venus, start_date := 2556.75, end_date := 9861.75,
     is_current := false, is_past := false, elapsed_years := none,
     remaining_years := none, period_years := 20 },
   { planet := Planet.Sun, start_date := 9861.75, end_date := 12053.25,
     is_current := false, is_past := false, elapsed_years := none,
     remaining_years := none, period_years := 6 },
   { planet := Planet.Moon, start_date := 12053.25, end_date := 15705.75,
     is_current := false, is_past := false, elapsed_years := none,
     remaining_years := none, period_years := 10 },
   { planet := Planet.Mars, start_date := 15705.75, end_date := 18262.5,
     is_current := false, is_past := false, elapsed_years := none,
     remaining_years := none, period_years := 7 },
   { planet := Planet.Rahu, start_date := 18262.5, end_date := 24837,
     is_current := false, is_past := false, elapsed_years := none,
     remaining_years := none, period_years := 18 },
   { planet := Planet.Jupiter, start_date := 24837, end_date := 30681,
     is_current := false, is_past := false, elapsed_years := none,
     remaining_years := none, period_years := 16 },
   { planet := Planet.Saturn, start_date := 30681, end_date := 37620.75,
     is_current := false, is_past := false, elapsed_years := none,
     remaining_years := none, period_years := 19 }]

theorem timeline_loop_0 :
    timeline_loop 0 36525 7 2556.75 = timeline0.tail := by
  rw [timeline0]
  repeat
    rw [timeline_loop]
    norm_num [planet_sequence, DASHA_PERIODS, TimelineEntry.mk.injEq,
      decide_eq_true_eq, decide_eq_false_iff_not, List.getD]

theorem timeline0_eq :
    get_complete_life_dasha_timeline (some 0) 0 0 = some timeline0 := by
  have hrf : ratFloor (0:ℚ) = 0 := ratFloor_eq_of (by norm_num) (by norm_num)
  rw [get_complete_life_dasha_timeline, calculate_dasha_start_date_0]
  simp only [dashaInfo0, planetIndex]
  norm_num [hrf, decide_eq_true_eq, TimelineEntry.mk.injEq]
  rw [show (10227 / 4 : ℚ) = 2556.75 by norm_num, timeline_loop_0, timeline0]
  norm_num [DASHA_PERIODS, TimelineEntry.mk.injEq, List.tail_cons]

/-- Witness for C2 at Moon longitude 0, birth 0, now 0: the timeline
hypothesis holds and the first two entries share their boundary. -/
theorem C2_witness :
    get_complete_life_dasha_timeline (some 0) 0 0 = some timeline0 ∧
    ({ planet := Planet.Ketu, start_date := 0, end_date := 2556.75,
       is_current := true, is_past := false, elapsed_years := some 0,
       remaining_years := some 7, period_years := 7 } :
        TimelineEntry).end_date =
      ({ planet := Planet.Venus, start_date := 2556.75, end_date := 9861.75,
         is_current := false, is_past := false, elapsed_years := none,
         remaining_years := none, period_years := 20 } :
          TimelineEntry).start_date := by
  refine ⟨timeline0_eq, ?_⟩
  exact (C2_timeline_contiguous (some 0) 0 0 timeline0 timeline0_eq).1 0
    _ _ rfl rfl

/-- Witness for C10 at Moon longitude 0, birth 0, now 0: the first entry of
the concrete timeline is not both current and past. -/
theorem C10_witness :
    get_complete_life_dasha_timeline (some 0) 0 0 = some timeline0 ∧
    ¬(({ planet := Planet.Ketu, start_date := 0, end_date := 2556.75,
         is_current := true, is_past := false, elapsed_years := some 0,
         remaining_years := some 7, period_years := 7 } :
          TimelineEntry).is_current = true ∧
      ({ planet := Planet.Ketu, start_date := 0, end_date := 2556.75,
         is_current := true, is_past := false, elapsed_years := some 0,
         remaining_years := some 7, period_years := 7 } :
          TimelineEntry).is_past = true) := by
  refine ⟨timeline0_eq, ?_⟩
  exact (C10_status_partition (some 0) 0 0 timeline0 timeline0_eq).1 _
    (by rw [timeline0]; exact List.mem_cons_self _ _)

/-- Claim C6, counterexample: in the concrete timeline for Moon longitude 0
(birth 0, now 0) the Venus entry (position 1) is immediately followed by a
SUN entry (position 2), not by a Ketu entry as the claim states. -/
theorem C6_counterexample :
    get_complete_life_dasha_timeline (some 0) 0 0 = some timeline0 ∧
    timeline0[1]?.map TimelineEntry.planet = some Planet.Venus ∧
    timeline0[2]?.map TimelineEntry.planet = some Planet.Sun ∧
    Planet.Sun ≠ Planet.Ketu :=
  ⟨timeline0_eq, rfl, rfl, by decide⟩

/-- Witness for the amended C6 on the concrete timeline: its Venus entry is
followed by the Sun entry. -/
theorem C6_witness :
    get_complete_life_dasha_timeline (some 0) 0 0 = some timeline0 ∧
    ({ planet := Planet.Sun, start_date := 9861.75, end_date := 12053.25,
       is_current := false, is_past := false, elapsed_years := none,
       remaining_years := none, period_years := 6 } :
        TimelineEntry).planet = Planet.Sun := by
  refine ⟨timeline0_eq, ?_⟩
  exact C6_venus_followed_by_sun (some 0) 0 0 timeline0 1
    { planet := Planet.Venus, start_date := 2556.75, end_date := 9861.75,
      is_current := false, is_past := false, elapsed_years := none,
      remaining_years := none, period_years := 20 }
    { planet := Planet.Sun, start_date := 9861.75, end_date := 12053.25,
      is_current := false, is_past := false, elapsed_years := none,
      remaining_years := none, period_years := 6 }
    timeline0_eq rfl rfl rfl

/-- Unfolding equation of `get_current_dasha_walk` with the `let` bindings
expanded (convenient for reasoning). -/
theorem get_current_dasha_walk_unfold (years_to_account current_start : ℚ)
    (start_index : ℕ) :
    get_current_dasha_walk years_to_account current_start start_index =
    if 0 < years_to_account then
      if years_to_account ≤
          DASHA_PERIODS (planet_sequence.getD start_index Planet.Sun) then
        (some ⟨planet_sequence.getD start_index Planet.Sun, current_start,
               DASHA_PERIODS (planet_sequence.getD start_index Planet.Sun),
               years_to_account,
               DASHA_PERIODS (planet_sequence.getD start_index Planet.Sun) -
                 years_to_account,
               current_start +
                 DASHA_PERIODS (planet_sequence.getD start_index Planet.Sun) *
                   365.25⟩, 1)
      else
        ((get_current_dasha_walk
            (years_to_account -
              DASHA_PERIODS (planet_sequence.getD start_index Planet.Sun))
            (current_start +
              DASHA_PERIODS (planet_sequence.getD start_index Planet.Sun) *
                365.25)
            ((start_index + 1) % planet_sequence.length)).1,
         (get_current_dasha_walk
            (years_to_account -
              DASHA_PERIODS (planet_sequence.getD start_index Planet.Sun))
            (current_start +
              DASHA_PERIODS (planet_sequence.getD start_index Planet.Sun) *
                365.25)
            ((start_index + 1) % planet_sequence.length)).2 + 1)
    else (none, 0) := by
  rw [get_current_dasha_walk]
  split <;> rfl

/-- Each iteration of the cyclic-advance walk accounts for at most 20
years, so the iteration count is at least `years_to_account / 20`. -/
theorem walk_iters_lower (years_to_account current_start : ℚ)
    (start_index : ℕ) :
    years_to_account ≤
      20 * ((get_current_dasha_walk years_to_account current_start
        start_index).2 : ℚ) := by
  rw [get_current_dasha_walk_unfold]
  split
  · rename_i hpos
    split
    · rename_i hle
      have h20 := DASHA_PERIODS_le_twenty
        (planet_sequence.getD start_index Planet.Sun)
      push_cast
      linarith
    · rename_i hgt
      have ih := walk_iters_lower
        (years_to_account -
          DASHA_PERIODS (planet_sequence.getD start_index Planet.Sun))
        (current_start +
          DASHA_PERIODS (planet_sequence.getD start_index Planet.Sun) * 365.25)
        ((start_index + 1) % planet_sequence.length)
      have h20 := DASHA_PERIODS_le_twenty
        (planet_sequence.getD start_index Planet.Sun)
      dsimp only
      push_cast
      push_cast at ih
      linarith
  · rename_i hpos
    push_neg at hpos
    norm_num
    linarith
termination_by (⌈years_to_account⌉).toNat
decreasing_by
  have hpos' : 0 < years_to_account := by assumption
  have h6 : (6:ℚ) ≤ DASHA_PERIODS (planet_sequence.getD start_index Planet.Sun) :=
    DASHA_PERIODS_ge_six _
  have hA : ⌈years_to_account -
      DASHA_PERIODS (planet_sequence.getD start_index Planet.Sun)⌉ ≤
      ⌈years_to_account⌉ - 1 := by
    rw [Int.ceil_le]
    push_cast
    have := Int.le_ceil years_to_account
    linarith
  have hB : 1 ≤ ⌈years_to_account⌉ := Int.ceil_pos.mpr hpos'
  omega

/-- Sum of the period lengths of `n` consecutive bodies of the cycle
starting at position `si`. -/
def cycle_sum : ℕ → ℕ → ℚ
  | 0, _ => 0
  | n + 1, si =>
      DASHA_PERIODS (planet_sequence.getD si Planet.Sun) +
      cycle_sum n ((si + 1) % planet_sequence.length)

theorem cycle_sum_nine (si : ℕ) (h : si < 9) : cycle_sum 9 si = 120 := by
  interval_cases si <;>
    norm_num [cycle_sum, planet_sequence, DASHA_PERIODS, List.getD]

/-- If the years still to account for are at most the sum of the next `n`
period lengths, the walk stops within `n` iterations. -/
theorem walk_iters_upper : ∀ (n : ℕ) (start_index : ℕ)
    (years_to_account current_start : ℚ), 0 < years_to_account →
    years_to_account ≤ cycle_sum n start_index →
    (get_current_dasha_walk years_to_account current_start start_index).2 ≤ n := by
  intro n
  induction n with
  | zero =>
    intro si yta cs hpos hle
    rw [cycle_sum] at hle
    linarith
  | succ n ih =>
    intro si yta cs hpos hle
    rw [get_current_dasha_walk_unfold, if_pos hpos]
    split
    · rename_i h1
      omega
    · rename_i h1
      push_neg at h1
      have hrec := ih ((si + 1) % planet_sequence.length)
        (yta - DASHA_PERIODS (planet_sequence.getD si Planet.Sun))
        (cs + DASHA_PERIODS (planet_sequence.getD si Planet.Sun) * 365.25)
        (by linarith)
        (by
          have hcs : cycle_sum (n + 1) si =
              DASHA_PERIODS (planet_sequence.getD si Planet.Sun) +
              cycle_sum n ((si + 1) % planet_sequence.length) := rfl
          rw [hcs] at hle
          linarith)
      dsimp only
      omega

/-- Number of iterations of the cyclic-advance loop performed by
`get_current_dasha`. -/
def get_current_dasha_iters (moon_eph : Option ℚ) (birth now : ℚ) : ℕ :=
  (get_current_dasha_full moon_eph birth now).2

/-- Claim C8, counterexample: for a query instant 400 years after birth
(which is "at or after birth"), the cyclic-advance loop of
`get_current_dasha` runs for more than 18 iterations (2 full 9-period
cycles); the loop has no iteration cap and its iteration count grows
without bound in the elapsed time. -/
theorem C8_counterexample :
    18 < get_current_dasha_iters (some 0) 0 146100 := by
  have hrf : ratFloor ((146100:ℚ) - 0) = 146100 :=
    ratFloor_eq_of (by norm_num) (by norm_num)
  rw [get_current_dasha_iters, get_current_dasha_full,
    calculate_dasha_start_date_0]
  simp only [dashaInfo0, hrf]
  rw [if_neg (by norm_num)]
  have hlow := walk_iters_lower (((146100:ℤ):ℚ) / 365.25 - 7)
    (0 + 7 * 365.25) ((planetIndex Planet.Ketu + 1) % planet_sequence.length)
  by_contra hc
  push_neg at hc
  have hc' : ((get_current_dasha_walk (((146100:ℤ):ℚ) / 365.25 - 7)
      (0 + 7 * 365.25)
      ((planetIndex Planet.Ketu + 1) % planet_sequence.length)).2 : ℚ) ≤ 18 := by
    exact_mod_cast hc
  have : ((146100:ℤ):ℚ) / 365.25 - 7 ≤ 20 * 18 := le_trans hlow (by linarith)
  norm_num at this

/-- Claim C8 (amended): for every query instant at or after birth and at
most 120 years (`120 * 365.25` days) after it, the cyclic-advance loop of
`get_current_dasha` performs at most 18 iterations (2 full 9-period
cycles; in fact at most 9).  The loop always terminates because every
iteration consumes at least 6 years, but the code contains no explicit
iteration cap, and for distant query instants the iteration count exceeds
any fixed bound (see the counterexample). -/
theorem C8_bounded_iterations (moon_eph : Option ℚ) (birth now : ℚ)
    (di : DashaInfo)
    (hm : calculate_dasha_start_date moon_eph birth = some di)
    (h0 : birth ≤ now) (h120 : now - birth ≤ 120 * 365.25) :
    get_current_dasha_iters moon_eph birth now ≤ 18 := by
  obtain ⟨hts, hcomp, hstart, hrem0, hremle⟩ := dasha_info_spec _ _ _ hm
  have hfl : ((ratFloor (now - birth) : ℤ) : ℚ) ≤ now - birth := by
    rw [ratFloor_eq]
    exact Int.floor_le _
  have hfl0 : (0:ℚ) ≤ ((ratFloor (now - birth) : ℤ) : ℚ) := by
    rw [ratFloor_eq]
    exact_mod_cast Int.floor_nonneg.mpr (by linarith)
  have hE0 : (0:ℚ) ≤ ((ratFloor (now - birth) : ℤ) : ℚ) / 365.25 :=
    div_nonneg hfl0 (by norm_num)
  have hE120 : ((ratFloor (now - birth) : ℤ) : ℚ) / 365.25 ≤ 120 := by
    rw [div_le_iff (by norm_num : (0:ℚ) < 365.25)]
    linarith
  have hsi : (planetIndex di.ruling_planet + 1) % planet_sequence.length < 9 := by
    have hlen : planet_sequence.length = 9 := rfl
    rw [hlen]
    exact Nat.mod_lt _ (by norm_num)
  simp only [get_current_dasha_iters, get_current_dasha_full, hm]
  split
  · norm_num
  · rename_i hgt
    push_neg at hgt
    refine le_trans (walk_iters_upper 9 _ _ _ ?_ ?_) (by norm_num)
    · linarith
    · rw [cycle_sum_nine _ hsi]
      linarith

/-- Witness for the amended C8 at Moon longitude 0, birth 0, query instant
100 years after birth: the loop stays within 18 iterations. -/
theorem C8_witness :
    (calculate_dasha_start_date (some 0) 0 = some dashaInfo0 ∧
      (0:ℚ) ≤ 36525 ∧ (36525:ℚ) - 0 ≤ 120 * 365.25) ∧
    get_current_dasha_iters (some 0) 0 36525 ≤ 18 :=
  ⟨⟨calculate_dasha_start_date_0, by norm_num, by norm_num⟩,
   C8_bounded_iterations (some 0) 0 36525 dashaInfo0
     calculate_dasha_start_date_0 (by norm_num) (by norm_num)⟩

theorem pyInt_sade_period : (pyInt (7.5 * 365.25) : ℤ) = 2739 := by
  rw [pyInt_of_nonneg (by norm_num), Int.floor_eq_iff]
  norm_num

theorem pyInt_saturn_cycle : (pyInt (29.5 * 365.25) : ℤ) = 10774 := by
  rw [pyInt_of_nonneg (by norm_num), Int.floor_eq_iff]
  norm_num

theorem pyInt_ashtama_period : (pyInt (2.5 * 365.25) : ℤ) = 913 := by
  rw [pyInt_of_nonneg (by norm_num), Int.floor_eq_iff]
  norm_num

/-- Every entry produced by the Sade Sathi loop is a single 2739-day
period with one phase label and the phase-determined intensity. -/
theorem sade_loop_entries (sat_eph : ℚ → Option ℚ) (end_date : ℚ)
    (h12 h1 h2 : ℤ) (current_date : ℚ) (cycle_count : ℕ) :
    ∀ e ∈ sade_loop sat_eph end_date h12 h1 h2 current_date cycle_count,
      e.name = "Sade Sathi" ∧ e.end_date = e.start_date + 2739 ∧
      e.duration_years = 7.5 ∧
      ((e.phase = "Rising (Arohini)" ∧ e.intensity = "Moderate") ∨
       (e.phase = "Peak (Madhya)" ∧ e.intensity = "High") ∨
       (e.phase = "Setting (Avarohi)" ∧ e.intensity = "Moderate")) := by
  intro e he
  rw [sade_loop] at he
  split at he
  · rename_i hcond
    cases hsp : get_planet_position (sat_eph current_date) with
    | none =>
      rw [hsp] at he
      exact sade_loop_entries sat_eph end_date h12 h1 h2 _ _ e he
    | some saturn_pos =>
      rw [hsp] at he
      dsimp only at he
      by_cases hin : saturn_pos.sign = h12 ∨ saturn_pos.sign = h1 ∨
          saturn_pos.sign = h2
      · rw [if_pos hin] at he
        rcases List.mem_cons.mp he with rfl | hmem
        · refine ⟨rfl, ?_, rfl, ?_⟩
          · dsimp only
            rw [pyInt_sade_period]
            norm_num
          · by_cases hr : saturn_pos.sign = h12
            · exact Or.inl ⟨by simp only [if_pos hr], by simp only [if_pos hr]⟩
            · by_cases hp : saturn_pos.sign = h1
              · exact Or.inr (Or.inl ⟨by simp only [if_neg hr, if_pos hp],
                  by simp only [if_neg hr, if_pos hp]⟩)
              · exact Or.inr (Or.inr ⟨by simp only [if_neg hr, if_neg hp],
                  by simp only [if_neg hr, if_neg hp]⟩)
        · exact sade_loop_entries sat_eph end_date h12 h1 h2 _ _ e hmem
      · rw [if_neg hin] at he
        exact sade_loop_entries sat_eph end_date h12 h1 h2 _ _ e he
  · simp at he
termination_by (⌈end_date - current_date⌉).toNat
decreasing_by
  all_goals
    have hcc : current_date < end_date ∧ cycle_count < 4 := by assumption
    have hval : (pyInt (29.5 * 365.25) : ℤ) = 10774 := pyInt_saturn_cycle
    have hA : ⌈end_date - (current_date + (pyInt (29.5 * 365.25) : ℚ))⌉ ≤
        ⌈end_date - current_date⌉ - 1 := by
      rw [Int.ceil_le, hval]
      push_cast
      have := Int.le_ceil (end_date - current_date)
      linarith
    have hB : 1 ≤ ⌈end_date - current_date⌉ :=
      Int.ceil_pos.mpr (by linarith [hcc.1])
    omega

/-- Claim C4 (amended): every Sade Sathi period produced by
`calculate_sade_sathi_periods` is a SINGLE entry of `int(7.5*365.25) =
2739` days (about 7.5 years) labelled with exactly one phase — Rising,
Peak or Setting according to the house Saturn occupies at the sampled
instant — with intensity High exactly for the Peak label and Moderate
otherwise; the code does not subdivide a period into three consecutive
2.5-year phases. -/
theorem C4_sade_sathi_single_phase (moon_raw : Option ℚ)
    (sat_eph : ℚ → Option ℚ) (birth : ℚ) :
    ∀ e ∈ calculate_sade_sathi_periods moon_raw sat_eph birth,
      e.name = "Sade Sathi" ∧ e.end_date = e.start_date + 2739 ∧
      e.duration_years = 7.5 ∧
      ((e.phase = "Rising (Arohini)" ∧ e.intensity = "Moderate") ∨
       (e.phase = "Peak (Madhya)" ∧ e.intensity = "High") ∨
       (e.phase = "Setting (Avarohi)" ∧ e.intensity = "Moderate")) := by
  intro e he
  rw [calculate_sade_sathi_periods] at he
  cases hms : get_moon_sign moon_raw with
  | none => rw [hms] at he; simp at he
  | some moon_sign =>
    rw [hms] at he
    dsimp only at he
    by_cases hz : moon_sign = 0
    · rw [if_pos hz] at he; simp at he
    · rw [if_neg hz] at he
      exact sade_loop_entries _ _ _ _ _ _ _ e he

/-- A synthetic Saturn ephemeris that always returns longitude 335°
(sign 12, Pisces). -/
def saturnConst335 : ℚ → Option ℚ := fun _ => some 335

/-- A Rising-phase Sade Sathi entry starting at day `s`. -/
def sadeRising (s : ℚ) : SadeEntry :=
  { name := "Sade Sathi", phase := "Rising (Arohini)", intensity := "Moderate",
    start_date := s, end_date := s + 2739, duration_years := 7.5,
    saturn_house := 2 }

theorem sade_eval_15 :
    calculate_sade_sathi_periods (some 15) saturnConst335 0 =
      [sadeRising 0, sadeRising 10774, sadeRising 21548, sadeRising 32322] := by
  have h15 : ratFloor ((15:ℚ) / 30) = 0 :=
    ratFloor_eq_of (by norm_num) (by norm_num)
  have h335 : ratFloor ((335:ℚ) / 30) = 11 :=
    ratFloor_eq_of (by norm_num) (by norm_num)
  rw [calculate_sade_sathi_periods]
  simp only [get_moon_sign, get_planet_position, h15, Option.map_some']
  norm_num
  repeat
    rw [sade_loop]
    simp only [saturnConst335, get_planet_position, h335, pyInt_sade_period,
      pyInt_saturn_cycle]
    norm_num [sadeRising, SadeEntry.mk.injEq]

theorem ashtama_eval_15 :
    calculate_ashtama_shani_periods (some 15) saturnConst335 0 = [] := by
  have h15 : ratFloor ((15:ℚ) / 30) = 0 :=
    ratFloor_eq_of (by norm_num) (by norm_num)
  have h335 : ratFloor ((335:ℚ) / 30) = 11 :=
    ratFloor_eq_of (by norm_num) (by norm_num)
  rw [calculate_ashtama_shani_periods]
  simp only [get_moon_sign, get_planet_position, h15, Option.map_some']
  norm_num
  repeat
    rw [ashtama_loop]
    simp only [saturnConst335, get_planet_position, h335, pyInt_ashtama_period,
      pyInt_saturn_cycle]
    norm_num

/-- Claim C4, counterexample: with Moon longitude 15° and Saturn pinned at
335° (the 12th house from the Moon sign), every produced Sade Sathi period
is one single 2739-day (about 7.5-year) entry labelled Rising — consecutive
produced entries are Rising, Rising, ... rather than Rising, Peak, Setting,
and no produced entry lasts 2.5 years. -/
theorem C4_counterexample :
    calculate_sade_sathi_periods (some 15) saturnConst335 0 =
      [sadeRising 0, sadeRising 10774, sadeRising 21548, sadeRising 32322] ∧
    (sadeRising 0).end_date - (sadeRising 0).start_date = 2739 ∧
    (2739:ℚ) ≠ 2.5 * 365.25 ∧
    (sadeRising 0).phase = "Rising (Arohini)" ∧
    (sadeRising 10774).phase = "Rising (Arohini)" ∧
    "Rising (Arohini)" ≠ "Peak (Madhya)" :=
  ⟨sade_eval_15, by norm_num [sadeRising], by norm_num, rfl, rfl, by decide⟩

/-- Witness for the amended C4: the first produced entry of the concrete
run is a single 2739-day Rising/Moderate period. -/
theorem C4_witness :
    sadeRising 0 ∈ calculate_sade_sathi_periods (some 15) saturnConst335 0 ∧
    ((sadeRising 0).name = "Sade Sathi" ∧
     (sadeRising 0).end_date = (sadeRising 0).start_date + 2739 ∧
     (sadeRising 0).duration_years = 7.5 ∧
     (((sadeRising 0).phase = "Rising (Arohini)" ∧
         (sadeRising 0).intensity = "Moderate") ∨
      ((sadeRising 0).phase = "Peak (Madhya)" ∧
         (sadeRising 0).intensity = "High") ∨
      ((sadeRising 0).phase = "Setting (Avarohi)" ∧
         (sadeRising 0).intensity = "Moderate"))) := by
  have hmem : sadeRising 0 ∈
      calculate_sade_sathi_periods (some 15) saturnConst335 0 := by
    rw [sade_eval_15]
    exact List.mem_cons_self _ _
  exact ⟨hmem, C4_sade_sathi_single_phase (some 15) saturnConst335 0
    (sadeRising 0) hmem⟩

/-- Claim C3 (amended): the Dasha engine classifies half-open — an entry is
current iff `start ≤ now < end` and past iff `end ≤ now`, so an entry whose
`end_date` equals `now` is never current there — but the Affliction
calculator uses the CLOSED test `start ≤ now ≤ end`: a Sade Sathi period
is listed "Active Now" iff it is produced and `start ≤ now ≤ end`, so a
period whose end equals `now` IS reported as currently active by
`get_current_afflictions`.  The two components do not share the same
boundary rule. -/
theorem C3_classification_rules (moon_eph : Option ℚ) (birth now : ℚ)
    (t : List TimelineEntry)
    (ht : get_complete_life_dasha_timeline moon_eph birth now = some t)
    (moon_raw : Option ℚ) (sat_eph : ℚ → Option ℚ) (birth2 now2 : ℚ)
    (p : SadeEntry) :
    (∀ e ∈ t, (e.is_current = true ↔ e.start_date ≤ now ∧ now < e.end_date) ∧
      (e.is_past = true ↔ e.end_date ≤ now)) ∧
    (CurrentAffliction.mk (AfflictionPeriod.sade p) "Active Now"
        (ratFloor (p.end_date - now2)) ∈
        get_current_afflictions moon_raw sat_eph birth2 now2 ↔
      (p ∈ calculate_sade_sathi_periods moon_raw sat_eph birth2 ∧
        p.start_date ≤ now2 ∧ now2 ≤ p.end_date)) := by
  constructor
  · intro e he
    have hwf := chainedT_wf (timeline_chainedT _ _ _ _ ht) e he
    constructor
    · rw [hwf.2.2.1, decide_eq_true_eq]
    · rw [hwf.2.2.2, decide_eq_true_eq]
  · rw [get_current_afflictions]
    constructor
    · intro hmem
      rcases List.mem_append.mp hmem with hs | ha
      · rcases List.mem_filterMap.mp hs with ⟨q, hq, heq⟩
        by_cases hc : q.start_date ≤ now2 ∧ now2 ≤ q.end_date
        · rw [if_pos hc] at heq
          simp only [Option.some.injEq, CurrentAffliction.mk.injEq,
            AfflictionPeriod.sade.injEq] at heq
          obtain ⟨rfl, -⟩ := heq
          exact ⟨hq, hc⟩
        · rw [if_neg hc] at heq
          simp at heq
      · rcases List.mem_filterMap.mp ha with ⟨q, hq, heq⟩
        by_cases hc : q.start_date ≤ now2 ∧ now2 ≤ q.end_date
        · rw [if_pos hc] at heq
          simp at heq
        · rw [if_neg hc] at heq
          simp at heq
    · rintro ⟨hmem, hc⟩
      refine List.mem_append.mpr (Or.inl (List.mem_filterMap.mpr ⟨p, hmem, ?_⟩))
      rw [if_pos hc]

/-- Claim C3, counterexample: with Moon longitude 15°, Saturn pinned at
335°, birth 0 and `now = 2739` (exactly the end of the first Sade Sathi
period), `get_current_afflictions` reports that period "Active Now" even
though `end == now` — the affliction calculator's test is closed, not the
claimed shared half-open rule. -/
theorem C3_counterexample :
    get_current_afflictions (some 15) saturnConst335 0 2739 =
      [CurrentAffliction.mk (AfflictionPeriod.sade (sadeRising 0))
        "Active Now" 0] ∧
    (sadeRising 0).end_date = 2739 := by
  have hrf : ratFloor (0:ℚ) = 0 := ratFloor_eq_of (by norm_num) (by norm_num)
  constructor
  · rw [get_current_afflictions, sade_eval_15, ashtama_eval_15]
    norm_num [sadeRising, hrf, List.filterMap_cons, List.filterMap_nil]
  · norm_num [sadeRising]

/-- Witness for the amended C3: on the concrete data, the first timeline
entry's current flag matches the half-open test, and the boundary Sade
Sathi period (end = now = 2739) is listed "Active Now" by the closed
test. -/
theorem C3_witness :
    get_complete_life_dasha_timeline (some 0) 0 0 = some timeline0 ∧
    (({ planet := Planet.Ketu, start_date := 0, end_date := 2556.75,
        is_current := true, is_past := false, elapsed_years := some 0,
        remaining_years := some 7, period_years := 7 } :
         TimelineEntry).is_current = true ↔
      (0:ℚ) ≤ 0 ∧ (0:ℚ) < 2556.75) ∧
    (CurrentAffliction.mk (AfflictionPeriod.sade (sadeRising 0)) "Active Now"
        (ratFloor ((sadeRising 0).end_date - 2739)) ∈
        get_current_afflictions (some 15) saturnConst335 0 2739 ↔
      (sadeRising 0 ∈ calculate_sade_sathi_periods (some 15) saturnConst335 0 ∧
        (sadeRising 0).start_date ≤ 2739 ∧ (2739:ℚ) ≤ (sadeRising 0).end_date)) := by
  have h := C3_classification_rules (some 0) 0 0 timeline0 timeline0_eq
    (some 15) saturnConst335 0 2739 (sadeRising 0)
  refine ⟨timeline0_eq, ?_, h.2⟩
  exact (h.1 _ (by rw [timeline0]; exact List.mem_cons_self _ _)).1

theorem countP_eq_length_iff {α : Type} (p : α → Bool) (l : List α) :
    l.countP p = l.length ↔ ∀ a ∈ l, p a = true := by
  induction l with
  | nil => simp
  | cons a l ih =>
    have hle := l.countP_le_length p
    rw [List.countP_cons, List.length_cons]
    by_cases hpa : p a = true
    · rw [if_pos hpa]
      constructor
      · intro h
        have hcl : l.countP p = l.length := by omega
        intro x hx
        rcases List.mem_cons.mp hx with rfl | hmem
        · exact hpa
        · exact (ih.mp hcl) x hmem
      · intro h
        have hcl : l.countP p = l.length :=
          ih.mpr fun x hx => h x (List.mem_cons_of_mem a hx)
        omega
    · rw [if_neg hpa]
      constructor
      · intro h
        omega
      · intro h
        exact absurd (h a (List.mem_cons_self a l)) hpa

/-- The per-body membership test of `check_kala_sarpa_dosha`: the plain
range test when the Rahu→Ketu arc does not cross 0°, and the wraparound
test `longitude ≥ rahu_long OR longitude ≤ ketu_long` when it does. -/
def kala_sarpa_between (rahu_long ketu_long longitude : ℚ) : Prop :=
  if rahu_long < ketu_long then rahu_long ≤ longitude ∧ longitude ≤ ketu_long
  else (longitude ≥ rahu_long ∨ longitude ≤ ketu_long)

theorem kala_sarpa_pred_iff (r k L : ℚ) :
    ((if r < k then decide (r ≤ L ∧ L ≤ k) else decide (L ≥ r ∨ L ≤ k)) = true)
      ↔ kala_sarpa_between r k L := by
  rw [kala_sarpa_between]
  by_cases hrk : r < k
  · rw [if_pos hrk, if_pos hrk, decide_eq_true_eq]
  · rw [if_neg hrk, if_neg hrk, decide_eq_true_eq]

/-- Claim C5: when `check_kala_sarpa_dosha` succeeds (all positions
available), it reports the dosha present iff ALL seven classical bodies
pass the Rahu→Ketu arc test, with Ketu at `(rahu + 180) % 360` and the
wraparound case (Rahu not below Ketu) decided by
`longitude ≥ rahu_long OR longitude ≤ ketu_long`. -/
theorem C5_kala_sarpa_present_iff (s mo ma me ju ve sa ra : ℚ) (b : Bool)
    (h : check_kala_sarpa_dosha (some s) (some mo) (some ma) (some me)
      (some ju) (some ve) (some sa) (some ra) = some b) :
    b = true ↔
      (kala_sarpa_between ra (pyMod (ra + 180) 360) s ∧
       kala_sarpa_between ra (pyMod (ra + 180) 360) mo ∧
       kala_sarpa_between ra (pyMod (ra + 180) 360) ma ∧
       kala_sarpa_between ra (pyMod (ra + 180) 360) me ∧
       kala_sarpa_between ra (pyMod (ra + 180) 360) ju ∧
       kala_sarpa_between ra (pyMod (ra + 180) 360) ve ∧
       kala_sarpa_between ra (pyMod (ra + 180) 360) sa) := by
  simp only [check_kala_sarpa_dosha, get_planet_position, Option.map_some',
    List.filterMap_cons, List.filterMap_nil] at h
  norm_num at h
  rw [← h]
  have hlen : ([s, mo, ma, me, ju, ve, sa] : List ℚ).length = 7 := rfl
  rw [decide_eq_true_eq, ← hlen, countP_eq_length_iff]
  simp only [List.mem_cons, List.not_mem_nil, or_false, forall_eq_or_imp,
    forall_eq]
  by_cases hrk : ra < pyMod (ra + 180) 360
  · simp [kala_sarpa_between, hrk, decide_eq_true_eq]
  · simp [kala_sarpa_between, hrk, decide_eq_true_eq]

/-- Witness for C5: the synthetic chart with Rahu at 350° (hence Ketu at
170°) and the seven bodies at 351°, 352°, 353°, 5°, 6°, 7°, 8° — all in
`[350°,360°) ∪ [0°,10°)` — is detected as present despite the 0°/360°
crossing. -/
theorem C5_witness :
    check_kala_sarpa_dosha (some 351) (some 352) (some 353) (some 5) (some 6)
        (some 7) (some 8) (some 350) = some true ∧
    pyMod ((350:ℚ) + 180) 360 = 170 ∧
    (true = true ↔
      (kala_sarpa_between 350 (pyMod ((350:ℚ) + 180) 360) 351 ∧
       kala_sarpa_between 350 (pyMod ((350:ℚ) + 180) 360) 352 ∧
       kala_sarpa_between 350 (pyMod ((350:ℚ) + 180) 360) 353 ∧
       kala_sarpa_between 350 (pyMod ((350:ℚ) + 180) 360) 5 ∧
       kala_sarpa_between 350 (pyMod ((350:ℚ) + 180) 360) 6 ∧
       kala_sarpa_between 350 (pyMod ((350:ℚ) + 180) 360) 7 ∧
       kala_sarpa_between 350 (pyMod ((350:ℚ) + 180) 360) 8)) := by
  have hmod : pyMod ((350:ℚ) + 180) 360 = 170 := by
    rw [pyMod, ratFloor_eq_of (z := 1) (by norm_num) (by norm_num)]
    norm_num
  have heval : check_kala_sarpa_dosha (some 351) (some 352) (some 353)
      (some 5) (some 6) (some 7) (some 8) (some 350) = some true := by
    simp only [check_kala_sarpa_dosha, get_planet_position, Option.map_some',
      List.filterMap_cons, List.filterMap_nil, hmod, List.countP_cons,
      List.countP_nil]
    norm_num
  exact ⟨heval, hmod,
    C5_kala_sarpa_present_iff 351 352 353 5 6 7 8 350 true heval⟩
